import Mathlib

/-!
Verification of the lead-scoring core of the Headless-CMS-Backend
repository.  The definitions below are a shallow embedding of
`src/services/leadScoring.ts`, `src/types/index.ts`, the generic CRUD
layer (`db.update`) and the admin leads route (`updateLeadSchema`,
`GET /stats`).  JavaScript numbers are modelled as `Int`, optional
string fields as `Option String`, and JavaScript truthiness of a
string-valued expression (`undefined` and `""` are falsy) as
`strTruthy`.
-/

/-- Embeds the `LeadSource` enum of `src/types/index.ts`. -/
inductive LeadSource where
  | WEBSITE
  | WISHLIST
  | CONTACT_FORM
  | PHONE
  | CHAT
  | SOCIAL_MEDIA
  | WALK_IN
deriving DecidableEq, Repr, BEq

/-- Embeds the `LeadStatus` enum of `src/types/index.ts` (five members:
NEW, CONTACTED, SCHEDULED, CONVERTED, LOST). -/
inductive LeadStatus where
  | NEW
  | CONTACTED
  | SCHEDULED
  | CONVERTED
  | LOST
deriving DecidableEq, Repr, BEq

/-- Embeds the `Lead` interface of `src/types/index.ts`, restricted to the
fields read or written by the embedded operations (scoring, breakdown,
admin update).  Optional fields are `Option`s; `email` is required. -/
structure Lead where
  id : String
  name : String
  email : String
  phone : Option String := none
  source : LeadSource
  status : LeadStatus
  score : Int
  message : Option String := none
  wishlistId : Option String := none
  customerId : Option String := none
  utmSource : Option String := none
  utmMedium : Option String := none
  utmCampaign : Option String := none
  assignedTo : Option String := none
  createdAt : String := ""
  updatedAt : String := ""
  contactedAt : Option String := none
  convertedAt : Option String := none
deriving DecidableEq, Repr

/-- Embeds the `WishlistItem` interface of `src/types/index.ts`. -/
structure WishlistItem where
  id : String
  wishlistId : String
  productId : String
  notes : Option String := none
  addedAt : String := ""
deriving DecidableEq, Repr

/-- Embeds the `Wishlist` interface of `src/types/index.ts`, restricted to
the fields the scorer reads. -/
structure Wishlist where
  id : String
  name : String := ""
  email : Option String := none
  customerId : Option String := none
  shareToken : String := ""
  items : List WishlistItem
deriving DecidableEq, Repr

/-- Embeds the `Product` interface of `src/types/index.ts`, restricted to
the two fields the scorer reads (`id` for lookup, `price` for the value
term). -/
structure Product where
  id : String
  price : Int
deriving DecidableEq, Repr

/-- The slice of the JSON-file database (`src/utils/database.ts`) that the
scoring engine reads: the `products` and `leads` collections. -/
structure DbState where
  products : List Product
  leads : List Lead
deriving DecidableEq, Repr

/-- JavaScript truthiness of an optional string: `undefined` and the empty
string are falsy, every other string is truthy. -/
def strTruthy : Option String → Bool
  | none => false
  | some s => s != ""

/-- JavaScript `a || b` on two optional strings: yields `a` when `a` is
truthy, otherwise `b`.  Used for `customerId || lead.customerId` at line 67
of `leadScoring.ts`. -/
def jsOrStr (a b : Option String) : Option String :=
  if strTruthy a then a else b

/-- Embeds lines 31-35 of `leadScoring.ts`: the total wishlist value,
resolving each item by product id against the products collection, a
missing product contributing 0. -/
def wishlistTotal (products : List Product) (wl : Wishlist) : Int :=
  wl.items.foldl
    (fun total item =>
      total +
        (match products.find? (fun p => p.id == item.productId) with
         | some p => p.price
         | none => 0))
    0

/-- Embeds lines 38-43 of `leadScoring.ts`: the value term of the score, an
if-else chain over the total wishlist value. -/
def valueScore (total : Int) : Int :=
  if total ≥ 10000 then 30
  else if total ≥ 5000 then 25
  else if total ≥ 2000 then 20
  else if total ≥ 1000 then 15
  else if total ≥ 500 then 10
  else if total > 0 then 5
  else 0

/-- Embeds line 28 of `leadScoring.ts`: `Math.min(items.length * 10, 40)`. -/
def itemCountScore (n : Nat) : Int :=
  min ((n : Int) * 10) 40

/-- Embeds lines 27-44 of `leadScoring.ts`: the whole wishlist block,
guarded by the wishlist being present with a positive item count. -/
def wishlistScore (products : List Product) (wishlist : Option Wishlist) : Int :=
  match wishlist with
  | some wl =>
    if 0 < wl.items.length then
      itemCountScore wl.items.length + valueScore (wishlistTotal products wl)
    else 0
  | none => 0

/-- Embeds lines 27-28 of `leadScoring.ts` viewed as the item-count term of
the score: `min(items.length * 10, 40)` when the wishlist is non-empty,
0 otherwise. -/
def itemCountTerm (wl : Wishlist) : Int :=
  if 0 < wl.items.length then itemCountScore wl.items.length else 0

/-- Embeds lines 47-49 of `leadScoring.ts`: +10 for a truthy phone. -/
def phoneScore (lead : Lead) : Int :=
  if strTruthy lead.phone then 10 else 0

/-- Embeds lines 52-54 of `leadScoring.ts`: +10 for a message longer than
20 characters (`lead.message && lead.message.length > 20`). -/
def messageScore (lead : Lead) : Int :=
  match lead.message with
  | some m => if 20 < m.length then 10 else 0
  | none => 0

/-- Embeds lines 57-59 of `leadScoring.ts`: +5 when the source is
WISHLIST. -/
def sourceScore (lead : Lead) : Int :=
  if lead.source == LeadSource.WISHLIST then 5 else 0

/-- Embeds lines 62-64 of `leadScoring.ts`: +5 when `utmSource` or
`utmCampaign` is truthy. -/
def utmScore (lead : Lead) : Int :=
  if strTruthy lead.utmSource || strTruthy lead.utmCampaign then 5 else 0

/-- Embeds lines 70-72 of `leadScoring.ts`: +8 when a customer id is
resolved. -/
def accountScore (resolved : Option String) : Int :=
  if strTruthy resolved then 8 else 0

/-- Embeds the filter predicate of lines 77-82 of `leadScoring.ts`: a
sibling lead is a different lead matching by customer id (only when one is
resolved) or by exact email equality. -/
def siblingFilter (lead : Lead) (resolved : Option String) (l : Lead) : Bool :=
  l.id != lead.id &&
    ((strTruthy resolved && l.customerId == resolved) || l.email == lead.email)

/-- Embeds lines 76-82 of `leadScoring.ts`: the sibling leads of a lead in
the leads collection. -/
def siblingLeads (leads : List Lead) (lead : Lead) (resolved : Option String) : List Lead :=
  leads.filter (siblingFilter lead resolved)

/-- Embeds lines 75-86 of `leadScoring.ts`: the repeat-contact bonus,
`min(siblingCount * 3, 7)` when there is at least one sibling, inside the
`resolvedCustomerId || lead.email` guard. -/
def repeatScore (leads : List Lead) (lead : Lead) (resolved : Option String) : Int :=
  if strTruthy resolved || lead.email != "" then
    if 0 < (siblingLeads leads lead resolved).length then
      min (((siblingLeads leads lead resolved).length : Int) * 3) 7
    else 0
  else 0

/-- Embeds the predicate of lines 91-96 of `leadScoring.ts`: a different
lead with status CONVERTED matching by customer id (when resolved) or by
email. -/
def convertedFilter (lead : Lead) (resolved : Option String) (l : Lead) : Bool :=
  l.id != lead.id && l.status == LeadStatus.CONVERTED &&
    ((strTruthy resolved && l.customerId == resolved) || l.email == lead.email)

/-- Embeds lines 89-100 of `leadScoring.ts`: +10 when some converted
sibling exists, inside the `resolvedCustomerId || lead.email` guard. -/
def conversionScore (leads : List Lead) (lead : Lead) (resolved : Option String) : Int :=
  if strTruthy resolved || lead.email != "" then
    if leads.any (convertedFilter lead resolved) then 10 else 0
  else 0

/-- Embeds `calculateLeadScore` (lines 23-103 of `leadScoring.ts`): the sum
of the term functions above, clamped by `Math.min(score, 100)`. -/
def calculateLeadScore (state : DbState) (lead : Lead)
    (wishlist : Option Wishlist := none) (customerId : Option String := none) : Int :=
  let resolved := jsOrStr customerId lead.customerId
  min
    (wishlistScore state.products wishlist + phoneScore lead + messageScore lead +
      sourceScore lead + utmScore lead + accountScore resolved +
      repeatScore state.leads lead resolved + conversionScore state.leads lead resolved)
    100

/-- Embeds `getLeadCategory` (lines 108-112 of `leadScoring.ts`). -/
def getLeadCategory (score : Int) : String :=
  if score ≥ 61 then "Hot Lead"
  else if score ≥ 31 then "Warm Lead"
  else "Cold Lead"

/-- Embeds lines 138-143 of `leadScoring.ts`: the value-tier entry of the
breakdown, as the (zero- or one-element) list of record entries the if-else
chain inserts. -/
def valueBreakdown (total : Int) : List (String × Int) :=
  if total ≥ 10000 then [("High Value Wishlist", (30 : Int))]
  else if total ≥ 5000 then [("High Value Wishlist", (25 : Int))]
  else if total ≥ 2000 then [("Medium Value Wishlist", (20 : Int))]
  else if total ≥ 1000 then [("Medium Value Wishlist", (15 : Int))]
  else if total ≥ 500 then [("Low Value Wishlist", (10 : Int))]
  else if total > 0 then [("Low Value Wishlist", (5 : Int))]
  else []

/-- Embeds lines 129-144 of `leadScoring.ts`: the wishlist entries of the
breakdown (item-count entry, then the value-tier entry), inserted only for
a present, non-empty wishlist. -/
def wishlistBreakdown (products : List Product) (wishlist : Option Wishlist) :
    List (String × Int) :=
  match wishlist with
  | some wl =>
    if 0 < wl.items.length then
      ("Wishlist Items", itemCountScore wl.items.length) ::
        valueBreakdown (wishlistTotal products wl)
    else []
  | none => []

/-- Embeds lines 146-148 of `leadScoring.ts`: the phone entry. -/
def phoneBreakdown (lead : Lead) : List (String × Int) :=
  if strTruthy lead.phone then [("Phone Provided", (10 : Int))] else []

/-- Embeds lines 150-152 of `leadScoring.ts`: the detailed-message entry. -/
def messageBreakdown (lead : Lead) : List (String × Int) :=
  match lead.message with
  | some m => if 20 < m.length then [("Detailed Message", (10 : Int))] else []
  | none => []

/-- Embeds lines 154-156 of `leadScoring.ts`: the wishlist-source entry. -/
def sourceBreakdown (lead : Lead) : List (String × Int) :=
  if lead.source == LeadSource.WISHLIST then [("Wishlist Submission", (5 : Int))] else []

/-- Embeds lines 158-160 of `leadScoring.ts`: the campaign-tracking entry. -/
def utmBreakdown (lead : Lead) : List (String × Int) :=
  if strTruthy lead.utmSource || strTruthy lead.utmCampaign then
    [("Tracked Campaign", (5 : Int))]
  else []

/-- Embeds lines 165-167 of `leadScoring.ts`: the customer-account entry. -/
def accountBreakdown (resolved : Option String) : List (String × Int) :=
  if strTruthy resolved then [("Customer Account", (8 : Int))] else []

/-- Embeds lines 169-190 of `leadScoring.ts`: the repeat-customer and
previous-conversion entries, both inside the single
`resolvedCustomerId || lead.email` guard of the breakdown. -/
def customerBreakdown (leads : List Lead) (lead : Lead) (resolved : Option String) :
    List (String × Int) :=
  if strTruthy resolved || lead.email != "" then
    (if 0 < (siblingLeads leads lead resolved).length then
       [("Repeat Customer",
         min (((siblingLeads leads lead resolved).length : Int) * 3) 7)]
     else [])
    ++ (if leads.any (convertedFilter lead resolved) then
          [("Previous Conversion", (10 : Int))]
        else [])
  else []

/-- Embeds `getScoreBreakdown` (lines 126-193 of `leadScoring.ts`) as the
list of label-value entries inserted into the record, in insertion order.
Each entry group fires under exactly the condition of the source; the
resolved customer id is `lead.customerId` (no explicit override parameter,
line 163). -/
def getScoreBreakdown (state : DbState) (lead : Lead)
    (wishlist : Option Wishlist := none) : List (String × Int) :=
  let resolved := lead.customerId
  wishlistBreakdown state.products wishlist
    ++ phoneBreakdown lead
    ++ messageBreakdown lead
    ++ sourceBreakdown lead
    ++ utmBreakdown lead
    ++ accountBreakdown resolved
    ++ customerBreakdown state.leads lead resolved

/-- Sum of the values of a breakdown record. -/
def breakdownTotal (b : List (String × Int)) : Int :=
  (b.map Prod.snd).sum

/-- Embeds `updateLeadSchema` of the admin leads route: the shape of an
accepted `PUT /api/admin/leads/:id` body — optional status, assignment and
timestamps, nothing else. -/
structure LeadUpdate where
  status : Option LeadStatus := none
  assignedTo : Option String := none
  contactedAt : Option String := none
  convertedAt : Option String := none
deriving DecidableEq, Repr

/-- Embeds the object spread `{ ...items[index], ...updates, updatedAt }`
performed by `db.update` on a lead (line 177 of `src/utils/database.ts`):
a present update field overrides, an absent one keeps the stored value,
and `updatedAt` is always refreshed. -/
def mergeLeadUpdate (l : Lead) (u : LeadUpdate) (now : String) : Lead :=
  { l with
    status := u.status.getD l.status
    assignedTo := match u.assignedTo with | some a => some a | none => l.assignedTo
    contactedAt := match u.contactedAt with | some a => some a | none => l.contactedAt
    convertedAt := match u.convertedAt with | some a => some a | none => l.convertedAt
    updatedAt := now }

/-- Embeds `db.update('leads', id, updates)` (lines 166-180 of
`src/utils/database.ts`): replace the first lead with the given id by its
merge with the updates, leaving every other lead unchanged. -/
def updateLeadById (leads : List Lead) (id : String) (u : LeadUpdate) (now : String) :
    List Lead :=
  match leads with
  | [] => []
  | l :: rest =>
    if l.id == id then mergeLeadUpdate l u now :: rest
    else l :: updateLeadById rest id u now

/-- Embeds member access on the transpiled `LeadStatus` enum object: a
defined member name yields its value, any other name (such as `QUALIFIED`,
referenced by the admin stats route) yields JavaScript `undefined`,
modelled as `none`. -/
def leadStatusMember (memberName : String) : Option LeadStatus :=
  if memberName == "NEW" then some LeadStatus.NEW
  else if memberName == "CONTACTED" then some LeadStatus.CONTACTED
  else if memberName == "SCHEDULED" then some LeadStatus.SCHEDULED
  else if memberName == "CONVERTED" then some LeadStatus.CONVERTED
  else if memberName == "LOST" then some LeadStatus.LOST
  else none

/-- Embeds the `qualified` entry of the admin `GET /stats` route:
`leads.filter(l => l.status === LeadStatus.QUALIFIED).length`, where the
stored status (always defined) is compared against the member lookup
(which is `undefined` for QUALIFIED). -/
def statsQualifiedCount (leads : List Lead) : Nat :=
  (leads.filter (fun l => some l.status == leadStatusMember "QUALIFIED")).length

/-! ## Helper lemmas -/

lemma itemCountScore_nonneg (n : Nat) : 0 ≤ itemCountScore n := by
  unfold itemCountScore
  exact le_min (by positivity) (by norm_num)

lemma valueScore_nonneg (t : Int) : 0 ≤ valueScore t := by
  unfold valueScore
  split_ifs <;> norm_num

lemma wishlistScore_nonneg (products : List Product) (ws : Option Wishlist) :
    0 ≤ wishlistScore products ws := by
  cases ws with
  | none => simp [wishlistScore]
  | some wl =>
    simp only [wishlistScore]
    split_ifs with h
    · have a := itemCountScore_nonneg wl.items.length
      have b := valueScore_nonneg (wishlistTotal products wl)
      linarith
    · norm_num

lemma phoneScore_nonneg (lead : Lead) : 0 ≤ phoneScore lead := by
  unfold phoneScore
  split_ifs <;> norm_num

lemma messageScore_nonneg (lead : Lead) : 0 ≤ messageScore lead := by
  unfold messageScore
  cases lead.message with
  | none => norm_num
  | some m =>
    simp only []
    split_ifs <;> norm_num

lemma sourceScore_nonneg (lead : Lead) : 0 ≤ sourceScore lead := by
  unfold sourceScore
  split_ifs <;> norm_num

lemma utmScore_nonneg (lead : Lead) : 0 ≤ utmScore lead := by
  unfold utmScore
  split_ifs <;> norm_num

lemma accountScore_nonneg (resolved : Option String) : 0 ≤ accountScore resolved := by
  unfold accountScore
  split_ifs <;> norm_num

lemma repeatScore_nonneg (leads : List Lead) (lead : Lead) (resolved : Option String) :
    0 ≤ repeatScore leads lead resolved := by
  unfold repeatScore
  split_ifs <;> omega

lemma conversionScore_nonneg (leads : List Lead) (lead : Lead) (resolved : Option String) :
    0 ≤ conversionScore leads lead resolved := by
  unfold conversionScore
  split_ifs <;> norm_num

/-! ## Claim theorems -/

/-- C1: for every lead, optional wishlist, optional explicit customer id
and repository state, `calculateLeadScore` returns an integer between 0
and 100. -/
theorem calculateLeadScore_range (state : DbState) (lead : Lead)
    (wishlist : Option Wishlist) (customerId : Option String) :
    0 ≤ calculateLeadScore state lead wishlist customerId ∧
    calculateLeadScore state lead wishlist customerId ≤ 100 := by
  have h1 := wishlistScore_nonneg state.products wishlist
  have h2 := phoneScore_nonneg lead
  have h3 := messageScore_nonneg lead
  have h4 := sourceScore_nonneg lead
  have h5 := utmScore_nonneg lead
  have h6 := accountScore_nonneg (jsOrStr customerId lead.customerId)
  have h7 := repeatScore_nonneg state.leads lead (jsOrStr customerId lead.customerId)
  have h8 := conversionScore_nonneg state.leads lead (jsOrStr customerId lead.customerId)
  simp only [calculateLeadScore]
  exact ⟨le_min (by linarith) (by norm_num), min_le_right _ _⟩

/-- C5: `getLeadCategory` is total on the integers and partitions [0,100]
into the three contiguous bands Cold (0-30), Warm (31-60) and Hot
(61-100); every integer, in range or not, is mapped to one of the three
bands. -/
theorem getLeadCategory_partitions (s : Int) :
    (0 ≤ s → s ≤ 30 → getLeadCategory s = "Cold Lead") ∧
    (31 ≤ s → s ≤ 60 → getLeadCategory s = "Warm Lead") ∧
    (61 ≤ s → s ≤ 100 → getLeadCategory s = "Hot Lead") ∧
    (getLeadCategory s = "Cold Lead" ∨ getLeadCategory s = "Warm Lead" ∨
      getLeadCategory s = "Hot Lead") := by
  refine ⟨fun h1 h2 => ?_, fun h1 h2 => ?_, fun h1 h2 => ?_, ?_⟩ <;>
    unfold getLeadCategory <;> split_ifs <;> first | rfl | omega | simp

/-- Witness for C5 at concrete scores in each band. -/
theorem getLeadCategory_partitions_witness :
    getLeadCategory 15 = "Cold Lead" ∧ getLeadCategory 45 = "Warm Lead" ∧
    getLeadCategory 80 = "Hot Lead" :=
  ⟨(getLeadCategory_partitions 15).1 (by norm_num) (by norm_num),
   (getLeadCategory_partitions 45).2.1 (by norm_num) (by norm_num),
   (getLeadCategory_partitions 80).2.2.1 (by norm_num) (by norm_num)⟩

/-- C7: appending one item to a wishlist never decreases the item-count
term of the score, and for any wishlist with at least 4 items the
item-count term is saturated at exactly 40. -/
theorem itemCountTerm_monotone_saturates (wl : Wishlist) (it : WishlistItem) :
    itemCountTerm wl ≤ itemCountTerm { wl with items := wl.items ++ [it] } ∧
    (4 ≤ wl.items.length → itemCountTerm wl = 40) := by
  constructor
  · simp only [itemCountTerm, itemCountScore, List.length_append, List.length_cons,
      List.length_nil]
    split_ifs <;> push_cast <;> omega
  · intro h
    simp only [itemCountTerm, itemCountScore]
    rw [if_pos (by omega)]
    have h40 : (40 : Int) ≤ (wl.items.length : Int) * 10 := by
      have : (4 : Int) ≤ (wl.items.length : Int) := by exact_mod_cast h
      linarith
    exact min_eq_right h40

/-- Concrete five-item wishlist for the C7 witness. -/
def witnessItem (n : String) : WishlistItem :=
  { id := n, wishlistId := "W5", productId := n }

/-- Concrete wishlist with five items. -/
def witnessWishlist5 : Wishlist :=
  { id := "W5",
    items := [witnessItem "i1", witnessItem "i2", witnessItem "i3", witnessItem "i4",
              witnessItem "i5"] }

/-- Witness for C7: a five-item wishlist has a saturated item-count term of
40, and appending a sixth item does not decrease it. -/
theorem itemCountTerm_monotone_saturates_witness :
    itemCountTerm witnessWishlist5 ≤
      itemCountTerm { witnessWishlist5 with items := witnessWishlist5.items ++ [witnessItem "i6"] } ∧
    itemCountTerm witnessWishlist5 = 40 :=
  ⟨(itemCountTerm_monotone_saturates witnessWishlist5 (witnessItem "i6")).1,
   (itemCountTerm_monotone_saturates witnessWishlist5 (witnessItem "i6")).2 (by decide)⟩

/-- C8: the admin lead-update operation (optional status, assignment and
contact/conversion timestamps merged into the stored lead by `db.update`)
never changes any lead's `score` (nor its `id`): the id-score pairs of the
leads collection are unchanged by the update. -/
theorem updateLeadById_preserves_scores (leads : List Lead) (id : String)
    (u : LeadUpdate) (now : String) :
    (updateLeadById leads id u now).map (fun l => (l.id, l.score)) =
      leads.map (fun l => (l.id, l.score)) := by
  induction leads with
  | nil => rfl
  | cons l rest ih =>
    simp only [updateLeadById]
    split
    · simp [mergeLeadUpdate]
    · simp [ih]

/-- C9: with every stored status one of the five enum members, the
`qualified` statistic of the admin stats route is always 0, because the
comparison is against the nonexistent member `QUALIFIED`, whose lookup is
`undefined`. -/
theorem statsQualifiedCount_eq_zero (leads : List Lead) :
    statsQualifiedCount leads = 0 := by
  have hmem : leadStatusMember "QUALIFIED" = none := by decide
  unfold statsQualifiedCount
  rw [hmem]
  have hpred : (fun l : Lead => some l.status == (none : Option LeadStatus)) =
      fun _ => false := by
    funext l
    rfl
  rw [hpred]
  simp

/-- C10: `calculateLeadScore` does not read the lead's `utmMedium` field
nor its stored `score`: two leads differing only there get the same score
for any identical wishlist, explicit customer id and repository state. -/
theorem calculateLeadScore_ignores_utmMedium_and_score (state : DbState) (lead : Lead)
    (wishlist : Option Wishlist) (customerId : Option String)
    (m : Option String) (s : Int) :
    calculateLeadScore state { lead with utmMedium := m, score := s } wishlist customerId =
      calculateLeadScore state lead wishlist customerId := rfl

lemma valueScore_bands (t : Int) :
    (10000 ≤ t → valueScore t = 30) ∧
    (5000 ≤ t → t < 10000 → valueScore t = 25) ∧
    (2000 ≤ t → t < 5000 → valueScore t = 20) ∧
    (1000 ≤ t → t < 2000 → valueScore t = 15) ∧
    (500 ≤ t → t < 1000 → valueScore t = 10) ∧
    (0 < t → t < 500 → valueScore t = 5) ∧
    (t ≤ 0 → valueScore t = 0) := by
  unfold valueScore
  refine ⟨?_, ?_, ?_, ?_, ?_, ?_, ?_⟩ <;> intros <;> split_ifs <;> omega

/-- C3: for a present, non-empty wishlist the wishlist block of
`calculateLeadScore` decomposes into the item-count term plus the value
term, and the value term is exactly the step function of the summed
resolved prices: 30 at or above 10000 (however far above), 25 on
[5000,10000), 20 on [2000,5000), 15 on [1000,2000), 10 on [500,1000),
5 on (0,500), 0 at or below 0. -/
theorem wishlistValueTerm_step (products : List Product) (wl : Wishlist)
    (h : wl.items ≠ []) :
    wishlistScore products (some wl) =
      itemCountScore wl.items.length + valueScore (wishlistTotal products wl) ∧
    (10000 ≤ wishlistTotal products wl → valueScore (wishlistTotal products wl) = 30) ∧
    (5000 ≤ wishlistTotal products wl → wishlistTotal products wl < 10000 →
      valueScore (wishlistTotal products wl) = 25) ∧
    (2000 ≤ wishlistTotal products wl → wishlistTotal products wl < 5000 →
      valueScore (wishlistTotal products wl) = 20) ∧
    (1000 ≤ wishlistTotal products wl → wishlistTotal products wl < 2000 →
      valueScore (wishlistTotal products wl) = 15) ∧
    (500 ≤ wishlistTotal products wl → wishlistTotal products wl < 1000 →
      valueScore (wishlistTotal products wl) = 10) ∧
    (0 < wishlistTotal products wl → wishlistTotal products wl < 500 →
      valueScore (wishlistTotal products wl) = 5) ∧
    (wishlistTotal products wl ≤ 0 → valueScore (wishlistTotal products wl) = 0) := by
  refine ⟨?_, valueScore_bands (wishlistTotal products wl)⟩
  simp only [wishlistScore]
  rw [if_pos (List.length_pos.mpr h)]

/-- Concrete two-item wishlist totaling 12000 for the C3 witness. -/
def stepProducts : List Product :=
  [{ id := "SP1", price := 6000 }, { id := "SP2", price := 6000 }]

/-- Concrete wishlist referencing the two step products. -/
def stepWishlist : Wishlist :=
  { id := "WS",
    items := [{ id := "s1", wishlistId := "WS", productId := "SP1" },
              { id := "s2", wishlistId := "WS", productId := "SP2" }] }

/-- Witness for C3: the two-item wishlist totals 12000, its wishlist block
decomposes as item term plus value term, and the value term is exactly 30
although the total is 2000 above the 10000 threshold. -/
theorem wishlistValueTerm_step_witness :
    wishlistScore stepProducts (some stepWishlist) =
      itemCountScore stepWishlist.items.length +
        valueScore (wishlistTotal stepProducts stepWishlist) ∧
    valueScore (wishlistTotal stepProducts stepWishlist) = 30 :=
  ⟨(wishlistValueTerm_step stepProducts stepWishlist (by decide)).1,
   (wishlistValueTerm_step stepProducts stepWishlist (by decide)).2.1 (by decide)⟩

/-- C6: when the resolved customer id is a non-empty string, the sibling
filter returns exactly 2 leads, and one of those siblings has status
CONVERTED, the customer-account, repeat-contact and historical-conversion
terms of `calculateLeadScore` contribute exactly 8 + 6 + 10 = 24. -/
theorem customerTerms_sum_24 (leads : List Lead) (lead : Lead)
    (customerId : Option String) (c : String)
    (hres : jsOrStr customerId lead.customerId = some c) (hc : c ≠ "")
    (hsib : (siblingLeads leads lead (jsOrStr customerId lead.customerId)).length = 2)
    (hconv : ∃ l ∈ siblingLeads leads lead (jsOrStr customerId lead.customerId),
      l.status = LeadStatus.CONVERTED) :
    accountScore (jsOrStr customerId lead.customerId) +
      repeatScore leads lead (jsOrStr customerId lead.customerId) +
      conversionScore leads lead (jsOrStr customerId lead.customerId) = 24 := by
  have htr : strTruthy (jsOrStr customerId lead.customerId) = true := by
    rw [hres]
    unfold strTruthy
    simpa using hc
  obtain ⟨l, hmem, hst⟩ := hconv
  have hmem2 : l ∈ leads ∧ siblingFilter lead (jsOrStr customerId lead.customerId) l = true := by
    simpa [siblingLeads, List.mem_filter] using hmem
  have hSF := hmem2.2
  simp only [siblingFilter, Bool.and_eq_true] at hSF
  have hCF : convertedFilter lead (jsOrStr customerId lead.customerId) l = true := by
    simp only [convertedFilter, Bool.and_eq_true]
    exact ⟨⟨hSF.1, by rw [hst]; rfl⟩, hSF.2⟩
  have hany : leads.any (convertedFilter lead (jsOrStr customerId lead.customerId)) = true :=
    List.any_eq_true.mpr ⟨l, hmem2.1, hCF⟩
  simp only [accountScore, repeatScore, conversionScore, htr, hsib, hany, Bool.true_or,
    if_true]
  norm_num

/-- Concrete leads for the C6 witness: the scored lead plus two siblings
sharing its customer id, one of them converted. -/
def c6Lead : Lead :=
  { id := "L0", name := "N0", email := "n0@x.y", source := LeadSource.WEBSITE,
    status := LeadStatus.NEW, score := 0, customerId := some "CUST9" }

/-- First sibling lead, converted. -/
def c6Sibling1 : Lead :=
  { id := "L1", name := "N1", email := "n1@x.y", source := LeadSource.WEBSITE,
    status := LeadStatus.CONVERTED, score := 0, customerId := some "CUST9" }

/-- Second sibling lead. -/
def c6Sibling2 : Lead :=
  { id := "L2", name := "N2", email := "n2@x.y", source := LeadSource.WEBSITE,
    status := LeadStatus.NEW, score := 0, customerId := some "CUST9" }

/-- The three-lead collection for the C6 witness. -/
def c6Leads : List Lead := [c6Lead, c6Sibling1, c6Sibling2]

/-- Witness for C6 at the concrete three-lead collection. -/
theorem customerTerms_sum_24_witness :
    accountScore (jsOrStr none c6Lead.customerId) +
      repeatScore c6Leads c6Lead (jsOrStr none c6Lead.customerId) +
      conversionScore c6Leads c6Lead (jsOrStr none c6Lead.customerId) = 24 :=
  customerTerms_sum_24 c6Leads c6Lead none "CUST9" (by decide) (by decide) (by decide)
    (by exact ⟨c6Sibling1, by decide, by decide⟩)

lemma siblingLeads_nil_of_no_shared_email (leads : List Lead) (lead : Lead)
    (hns : ∀ l ∈ leads, l.id = lead.id ∨ l.email ≠ lead.email) :
    siblingLeads leads lead none = [] := by
  simp only [siblingLeads, List.filter_eq_nil_iff]
  intro l hl
  rcases hns l hl with h | h
  · simp [siblingFilter, h]
  · simp [siblingFilter, strTruthy, h]

lemma any_convertedFilter_false_of_no_shared_email (leads : List Lead) (lead : Lead)
    (hns : ∀ l ∈ leads, l.id = lead.id ∨ l.email ≠ lead.email) :
    leads.any (convertedFilter lead none) = false := by
  simp only [List.any_eq_false]
  intro l hl
  rcases hns l hl with h | h
  · simp [convertedFilter, h]
  · simp [convertedFilter, strTruthy, h]

/-- C4: a lead with truthy phone, a 25-character message, source WISHLIST,
no UTM fields, no customer id, a 3-item wishlist totaling 1200, and no
other lead sharing its email scores exactly 70, which is in the Hot
band. -/
theorem scenario_hot_70 (state : DbState) (lead : Lead) (wl : Wishlist) (m : String)
    (hphone : strTruthy lead.phone = true)
    (hmsg : lead.message = some m) (hlen : m.length = 25)
    (hsource : lead.source = LeadSource.WISHLIST)
    (hutm1 : lead.utmSource = none) (hutm2 : lead.utmCampaign = none)
    (_hutm3 : lead.utmMedium = none)
    (hcust : lead.customerId = none)
    (hitems : wl.items.length = 3)
    (htotal : wishlistTotal state.products wl = 1200)
    (hns : ∀ l ∈ state.leads, l.id = lead.id ∨ l.email ≠ lead.email) :
    calculateLeadScore state lead (some wl) none = 70 ∧
    getLeadCategory (calculateLeadScore state lead (some wl) none) = "Hot Lead" := by
  have hres : jsOrStr none lead.customerId = none := by
    simp [jsOrStr, strTruthy, hcust]
  have hsibnil := siblingLeads_nil_of_no_shared_email state.leads lead hns
  have hconvfalse := any_convertedFilter_false_of_no_shared_email state.leads lead hns
  have h1 : wishlistScore state.products (some wl) = 45 := by
    simp only [wishlistScore, hitems, htotal]
    decide
  have h2 : phoneScore lead = 10 := by simp [phoneScore, hphone]
  have h3 : messageScore lead = 10 := by simp [messageScore, hmsg, hlen]
  have h4 : sourceScore lead = 5 := by
    unfold sourceScore
    rw [hsource]
    rfl
  have h5 : utmScore lead = 0 := by simp [utmScore, hutm1, hutm2, strTruthy]
  have h6 : accountScore (jsOrStr none lead.customerId) = 0 := by
    simp [hres, accountScore, strTruthy]
  have h7 : repeatScore state.leads lead (jsOrStr none lead.customerId) = 0 := by
    rw [hres]
    unfold repeatScore
    rw [hsibnil]
    simp
  have h8 : conversionScore state.leads lead (jsOrStr none lead.customerId) = 0 := by
    rw [hres]
    unfold conversionScore
    rw [hconvfalse]
    simp
  have hscore : calculateLeadScore state lead (some wl) none = 70 := by
    simp only [calculateLeadScore]
    rw [h1, h2, h3, h4, h5, h6, h7, h8]
    norm_num
  refine ⟨hscore, ?_⟩
  rw [hscore]
  decide

/-- Concrete products for the C4 witness: three products of 400 each. -/
def c4Products : List Product :=
  [{ id := "P1", price := 400 }, { id := "P2", price := 400 }, { id := "P3", price := 400 }]

/-- Concrete three-item wishlist for the C4 witness. -/
def c4Wishlist : Wishlist :=
  { id := "W4",
    items := [{ id := "w1", wishlistId := "W4", productId := "P1" },
              { id := "w2", wishlistId := "W4", productId := "P2" },
              { id := "w3", wishlistId := "W4", productId := "P3" }] }

/-- Concrete lead for the C4 witness: phone, 25-character message, source
WISHLIST, no UTM, no customer id. -/
def c4Lead : Lead :=
  { id := "L4", name := "N4", email := "n4@x.y", phone := some "+1-876-5550100",
    source := LeadSource.WISHLIST, status := LeadStatus.NEW, score := 0,
    message := some "aaaaaaaaaaaaaaaaaaaaaaaaa" }

/-- Concrete repository state for the C4 witness: the three products and
only the lead itself in the leads collection. -/
def c4State : DbState := { products := c4Products, leads := [c4Lead] }

/-- Witness for C4 at the concrete state, lead and wishlist. -/
theorem scenario_hot_70_witness :
    calculateLeadScore c4State c4Lead (some c4Wishlist) none = 70 ∧
    getLeadCategory (calculateLeadScore c4State c4Lead (some c4Wishlist) none) =
      "Hot Lead" :=
  scenario_hot_70 c4State c4Lead c4Wishlist "aaaaaaaaaaaaaaaaaaaaaaaaa"
    (by decide) (by decide) (by decide) (by decide) (by decide) (by decide) (by decide)
    (by decide) (by decide) (by decide) (by decide)

lemma breakdownTotal_append (a b : List (String × Int)) :
    breakdownTotal (a ++ b) = breakdownTotal a + breakdownTotal b := by
  simp [breakdownTotal]

lemma bt_valueBreakdown (t : Int) :
    breakdownTotal (valueBreakdown t) = valueScore t := by
  unfold valueBreakdown valueScore
  split_ifs <;> simp [breakdownTotal]

lemma bt_wishlist (products : List Product) (ws : Option Wishlist) :
    breakdownTotal (wishlistBreakdown products ws) = wishlistScore products ws := by
  cases ws with
  | none => rfl
  | some wl =>
    simp only [wishlistBreakdown, wishlistScore]
    split_ifs with h
    · have hv := bt_valueBreakdown (wishlistTotal products wl)
      simp only [breakdownTotal, List.map_cons, List.sum_cons] at hv ⊢
      rw [hv]
    · rfl

lemma bt_phone (lead : Lead) : breakdownTotal (phoneBreakdown lead) = phoneScore lead := by
  unfold phoneBreakdown phoneScore
  split_ifs <;> simp [breakdownTotal]

lemma bt_message (lead : Lead) :
    breakdownTotal (messageBreakdown lead) = messageScore lead := by
  unfold messageBreakdown messageScore
  cases lead.message with
  | none => rfl
  | some m =>
    simp only []
    split_ifs <;> simp [breakdownTotal]

lemma bt_source (lead : Lead) :
    breakdownTotal (sourceBreakdown lead) = sourceScore lead := by
  unfold sourceBreakdown sourceScore
  split_ifs <;> simp [breakdownTotal]

lemma bt_utm (lead : Lead) : breakdownTotal (utmBreakdown lead) = utmScore lead := by
  unfold utmBreakdown utmScore
  split_ifs <;> simp [breakdownTotal]

lemma bt_account (resolved : Option String) :
    breakdownTotal (accountBreakdown resolved) = accountScore resolved := by
  unfold accountBreakdown accountScore
  split_ifs <;> simp [breakdownTotal]

lemma bt_customer (leads : List Lead) (lead : Lead) (resolved : Option String) :
    breakdownTotal (customerBreakdown leads lead resolved) =
      repeatScore leads lead resolved + conversionScore leads lead resolved := by
  unfold customerBreakdown repeatScore conversionScore
  split_ifs <;> simp [breakdownTotal]

/-- C2 amended: with no explicit customerId override, `calculateLeadScore`
equals the sum of the breakdown entries clamped at 100; the two agree
exactly whenever the un-clamped sum is at most 100, but the breakdown sum
is not clamped while the score is. -/
theorem calculateLeadScore_eq_min_breakdownTotal (state : DbState) (lead : Lead)
    (wishlist : Option Wishlist) :
    calculateLeadScore state lead wishlist none =
      min (breakdownTotal (getScoreBreakdown state lead wishlist)) 100 := by
  have hres : jsOrStr none lead.customerId = lead.customerId := rfl
  simp only [calculateLeadScore, getScoreBreakdown, hres, breakdownTotal_append,
    bt_wishlist, bt_phone, bt_message, bt_source, bt_utm, bt_account, bt_customer]
  congr 1
  ring

/-- Concrete products for the C2 counterexample: four products of 2500. -/
def c2Products : List Product :=
  [{ id := "Q1", price := 2500 }, { id := "Q2", price := 2500 },
   { id := "Q3", price := 2500 }, { id := "Q4", price := 2500 }]

/-- Concrete four-item wishlist totaling 10000. -/
def c2Wishlist : Wishlist :=
  { id := "W2",
    items := [{ id := "q1", wishlistId := "W2", productId := "Q1" },
              { id := "q2", wishlistId := "W2", productId := "Q2" },
              { id := "q3", wishlistId := "W2", productId := "Q3" },
              { id := "q4", wishlistId := "W2", productId := "Q4" }] }

/-- Concrete lead triggering phone, message, source, UTM and account
bonuses. -/
def c2Lead : Lead :=
  { id := "L2", name := "N2", email := "n2@z.z", phone := some "123",
    source := LeadSource.WISHLIST, status := LeadStatus.NEW, score := 0,
    message := some "bbbbbbbbbbbbbbbbbbbbbbbbb", customerId := some "CUST1",
    utmSource := some "google" }

/-- Concrete repository state for the C2 counterexample. -/
def c2State : DbState := { products := c2Products, leads := [] }

/-- Counterexample to C2 as stated: at this input the breakdown entries sum
to 108 while `calculateLeadScore` (called with no explicit customerId)
returns the clamped 100, so the two differ. -/
theorem breakdownTotal_ne_score_counterexample :
    breakdownTotal (getScoreBreakdown c2State c2Lead (some c2Wishlist)) = 108 ∧
    calculateLeadScore c2State c2Lead (some c2Wishlist) none = 100 ∧
    ¬ (breakdownTotal (getScoreBreakdown c2State c2Lead (some c2Wishlist)) =
        calculateLeadScore c2State c2Lead (some c2Wishlist) none) := by
  refine ⟨by decide, by decide, by decide⟩
